import Mathlib

/-!
Shallow embedding of the coverage-analysis engine of src/app.py from
japapin/martcon9 (src/app3.py contains an identical core: the same
calcular_media_ponderada, calcular_media_simples, faixa bins,
resumo_valores, resumo_percentuais and escrever_tabela_com_estilo).

Numbers are modelled as rationals. A pandas float cell that can be
non-finite (NaN or an infinity, as produced by a division whose
denominator is zero) is modelled as an Option value, with none standing
for the non-finite cell; rounding propagates none.
-/

/-- One validated input row, after the column rename at src/app.py lines
25-30: filial = "Filial", cobertura_dias = "Cobertura Atual",
valor_estoque = "Vlr Estoque Tmk", saldo_pedido = "Saldo Pedido". -/
structure StockRow where
  filial : String
  cobertura_dias : ℚ
  valor_estoque : ℚ
  saldo_pedido : ℚ
  deriving DecidableEq, Repr

/-- The bucket labels of the pd.cut call at src/app.py lines 60-65, in
bin order.  The spec names them in English ("<=0 days", ..., ">60 days");
the code labels are the Portuguese originals in the same order. -/
def bucketLabels : List String :=
  ["<=0 dias", "1-15 dias", "16-30 dias", "31-45 dias", "46-60 dias",
   "Mais de 60 dias"]

/-- pd.cut of cobertura_dias with bins [-inf, 0, 15, 30, 45, 60, inf] and
right=False (src/app.py lines 60-65): half-open, lower-inclusive
intervals. -/
def faixa (c : ℚ) : String :=
  if c < 0 then "<=0 dias"
  else if c < 15 then "1-15 dias"
  else if c < 30 then "16-30 dias"
  else if c < 45 then "31-45 dias"
  else if c < 60 then "46-60 dias"
  else "Mais de 60 dias"

/-- Rounding to two decimal places, as pandas .round(2) (exact-half
behaviour at the 2-decimal boundary is left open by the spec, section 9). -/
def round2 (q : ℚ) : ℚ := (round (q * 100) : ℚ) / 100

/-- Sum of the positive weights of a group (the denominator that
np.average uses after the filter at src/app.py line 37). -/
def pesoTotal (grupo : List StockRow) : ℚ :=
  ((grupo.filter (fun r => 0 < r.valor_estoque)).map (·.valor_estoque)).sum

/-- Weighted numerator sum(w * x) over the positive-weight rows. -/
def somaPonderada (grupo : List StockRow) : ℚ :=
  ((grupo.filter (fun r => 0 < r.valor_estoque)).map
    (fun r => r.cobertura_dias * r.valor_estoque)).sum

/-- src/app.py lines 36-40: keep the rows with valor_estoque > 0, return
0 when none remain, else np.average(cobertura_dias, weights=valor_estoque)
= sum(x * w) / sum(w). -/
def calcular_media_ponderada (grupo : List StockRow) : ℚ :=
  let g := grupo.filter (fun r => 0 < r.valor_estoque)
  if g.isEmpty then 0
  else ((g.map (fun r => r.cobertura_dias * r.valor_estoque)).sum) /
       ((g.map (·.valor_estoque)).sum)

/-- src/app.py lines 42-43: arithmetic mean of cobertura_dias over all
rows of the group. -/
def calcular_media_simples (grupo : List StockRow) : ℚ :=
  ((grupo.map (·.cobertura_dias)).sum) / (grupo.length : ℚ)

/-- The distinct branch keys in pandas groupby order: groupby sorts the
keys ascending (sort=True default), so the key set is the sorted
deduplicated list of filial values. -/
def filiais (rows : List StockRow) : List String :=
  ((rows.map (·.filial)).dedup).insertionSort (· ≤ ·)

/-- The rows of one branch (the group df.groupby("filial") hands to the
aggregation lambdas). -/
def branchRows (rows : List StockRow) (f : String) : List StockRow :=
  rows.filter (fun r => r.filial = f)

/-- One row of the cobertura table (src/app.py lines 46-57): per branch,
both averages rounded to two decimals, plus the unrounded pending-order
total mapped in afterwards from saldo_totais. -/
structure CoverageSummary where
  filial : String
  pond : ℚ
  simples : ℚ
  saldo_total : ℚ
  deriving DecidableEq, Repr

/-- The cobertura table: one CoverageSummary per branch, branches in
groupby (sorted) order. -/
def cobertura (rows : List StockRow) : List CoverageSummary :=
  (filiais rows).map (fun f =>
    let g := branchRows rows f
    { filial := f
      pond := round2 (calcular_media_ponderada g)
      simples := round2 (calcular_media_simples g)
      saldo_total := (g.map (·.saldo_pedido)).sum })

/-- Sum of saldo_pedido over the rows of branch f that fall in bucket b:
the cell of groupby(["filial", "faixa"]).sum().unstack().fillna(0)
(an absent (f, b) group gives the empty sum 0, the fillna(0) default). -/
def somaFaixa (rows : List StockRow) (f b : String) : ℚ :=
  ((rows.filter (fun r => r.filial = f ∧ faixa r.cobertura_dias = b)).map
    (·.saldo_pedido)).sum

/-- One row of resumo_valores: the branch key, the dense bucket → value
cells in bucket order, and the TOTAL column. -/
structure DistRow where
  filial : String
  valores : List (String × ℚ)
  total : ℚ
  deriving DecidableEq, Repr

/-- src/app.py lines 67-69 for one branch: the six bucket cells in label
order, then TOTAL = row sum across the bucket columns (sum(axis=1)). -/
def resumo_valores_row (rows : List StockRow) (f : String) : DistRow :=
  let vals := bucketLabels.map (fun b => (b, somaFaixa rows f b))
  { filial := f, valores := vals, total := (vals.map Prod.snd).sum }

/-- The resumo_valores table, branches in groupby (sorted) order. -/
def resumo_valores (rows : List StockRow) : List DistRow :=
  (filiais rows).map (resumo_valores_row rows)

/-- One percent cell of src/app.py line 73: (v / TOTAL * 100).round(2).
IEEE float division by a zero TOTAL yields a non-finite value (NaN for
0/0, an infinity otherwise) and rounding keeps it non-finite, modelled as
none; the code has no guard on TOTAL. -/
def pctCell (v T : ℚ) : Option ℚ :=
  if T = 0 then none else some (round2 (v / T * 100))

/-- One row of resumo_percentuais: the TOTAL column is dropped
(src/app.py line 74), bucket order preserved. -/
structure PctRow where
  filial : String
  valores : List (String × Option ℚ)
  deriving DecidableEq, Repr

/-- src/app.py lines 71-74 for one branch: each bucket column divided by
the TOTAL of the row, times 100, rounded to two decimals. -/
def resumo_percentuais_row (rows : List StockRow) (f : String) : PctRow :=
  let d := resumo_valores_row rows f
  { filial := f
    valores := d.valores.map (fun p => (p.1, pctCell p.2 d.total)) }

/-- The resumo_percentuais table, branches in groupby (sorted) order. -/
def resumo_percentuais (rows : List StockRow) : List PctRow :=
  (filiais rows).map (resumo_percentuais_row rows)

/-- Sum of the percent cells of a row, reading a non-finite cell as 0
(only used under a hypothesis that rules the non-finite case out). -/
def pctSum (p : PctRow) : ℚ :=
  (p.valores.map (fun q => q.2.getD 0)).sum

/-- The rows that escrever_tabela_com_estilo (src/app.py lines 92-116)
occupies and the value it returns.  The title goes at linha_inicial,
dataframe_to_rows(df, index=False, header=True) yields the header row
followed by the ndata data rows starting at linha = linha_inicial + 1,
and the function returns linha + ndata + 1. -/
structure TableWrite where
  titleRow : Nat
  headerRow : Nat
  dataRows : List Nat
  nextRow : Nat
  deriving DecidableEq, Repr

/-- src/app.py lines 92-116, reduced to its row geometry: which sheet
rows a table with ndata data rows writes when started at linha_inicial,
and the row index it returns to the caller. -/
def escrever_tabela_com_estilo (linha_inicial ndata : Nat) : TableWrite :=
  let linha := linha_inicial + 1
  { titleRow := linha_inicial
    headerRow := linha
    dataRows := (List.range ndata).map (fun i => linha + 1 + i)
    nextRow := linha + ndata + 1 }

/-- A one-row input whose branch total of saldo_pedido is zero. -/
def rowsZ : List StockRow := [⟨"A", 10, 100, 0⟩]

/-- The two-row scenario of spec section 8: branch "A", coverages 10 and
20, stock values 100 and 0, pending orders 50 and 30. -/
def rowsW : List StockRow := [⟨"A", 10, 100, 50⟩, ⟨"A", 20, 0, 30⟩]

/-- Six rows of branch "A", one per bucket, each with saldo_pedido 100,
so that each bucket holds one sixth of the total. -/
def rows6 : List StockRow :=
  [⟨"A", -1, 1, 100⟩, ⟨"A", 1, 1, 100⟩, ⟨"A", 16, 1, 100⟩,
   ⟨"A", 31, 1, 100⟩, ⟨"A", 46, 1, 100⟩, ⟨"A", 61, 1, 100⟩]

/-- Rows whose first-occurrence branch order is "B" before "A". -/
def rowsBA : List StockRow := [⟨"B", 1, 1, 1⟩, ⟨"A", 2, 1, 2⟩]

/-- A single row whose weight valor_estoque is not positive. -/
def rowsNeg : List StockRow := [⟨"C", 20, 0, 30⟩]

theorem somaFaixa_nil (f b : String) : somaFaixa [] f b = 0 := rfl

theorem somaFaixa_cons (r : StockRow) (rows : List StockRow) (f b : String) :
    somaFaixa (r :: rows) f b =
      (if r.filial = f ∧ faixa r.cobertura_dias = b then r.saldo_pedido else 0) +
        somaFaixa rows f b := by
  by_cases h : r.filial = f ∧ faixa r.cobertura_dias = b <;>
    simp [somaFaixa, List.filter_cons, h]

theorem filterPos_nil :
    (List.filter (fun r => decide (0 < r.valor_estoque)) []) = ([] : List StockRow) := rfl

theorem filterPos_cons (r : StockRow) (rows : List StockRow) :
    (r :: rows).filter (fun x => 0 < x.valor_estoque) =
      if 0 < r.valor_estoque then r :: rows.filter (fun x => 0 < x.valor_estoque)
      else rows.filter (fun x => 0 < x.valor_estoque) := by
  by_cases h : 0 < r.valor_estoque <;> simp [List.filter_cons, h]

theorem branchRows_nil (f : String) : branchRows [] f = [] := rfl

theorem branchRows_cons (r : StockRow) (rows : List StockRow) (f : String) :
    branchRows (r :: rows) f =
      if r.filial = f then r :: branchRows rows f else branchRows rows f := by
  by_cases h : r.filial = f <;> simp [branchRows, List.filter_cons, h]

theorem faixa_mem (c : ℚ) : faixa c ∈ bucketLabels := by
  unfold faixa bucketLabels
  split_ifs <;> simp

theorem round2_abs_le (q : ℚ) : |round2 q - q| ≤ 1 / 200 := by
  have h := abs_sub_round (q * 100)
  have h2 : round2 q - q = -((q * 100 - (round (q * 100) : ℚ)) / 100) := by
    unfold round2; ring
  rw [h2, abs_neg, abs_div]
  have h100 : |(100 : ℚ)| = 100 := by norm_num
  rw [h100]
  linarith

theorem pesoTotal_pos (g : List StockRow)
    (h : g.filter (fun r => 0 < r.valor_estoque) ≠ []) : 0 < pesoTotal g := by
  unfold pesoTotal
  apply List.sum_pos
  · intro x hx
    obtain ⟨r, hr, rfl⟩ := List.mem_map.mp hx
    exact of_decide_eq_true (List.mem_filter.mp hr).2
  · simpa using h

theorem sum_map_add {α : Type} (l : List α) (g h : α → ℚ) :
    (l.map (fun a => g a + h a)).sum = (l.map g).sum + (l.map h).sum := by
  induction l with
  | nil => simp
  | cons x xs ih => simp only [List.map_cons, List.sum_cons, ih]; ring

theorem sum_ite_not_mem (l : List String) (x : String) (a : ℚ) (hx : x ∉ l) :
    (l.map (fun b => if x = b then a else 0)).sum = 0 := by
  induction l with
  | nil => simp
  | cons y ys ih =>
    simp only [List.mem_cons, not_or] at hx
    simp [hx.1, ih hx.2]

theorem sum_ite_mem (l : List String) (x : String) (a : ℚ) (hl : l.Nodup) (hx : x ∈ l) :
    (l.map (fun b => if x = b then a else 0)).sum = a := by
  induction l with
  | nil => simp at hx
  | cons y ys ih =>
    rcases List.mem_cons.mp hx with h | h
    · subst h
      simp [sum_ite_not_mem ys x a (List.nodup_cons.mp hl).1]
    · have hne : x ≠ y := by
        rintro rfl; exact (List.nodup_cons.mp hl).1 h
      simp [hne, ih (List.nodup_cons.mp hl).2 h]

theorem bucketLabels_nodup : bucketLabels.Nodup := by
  simp [bucketLabels]

theorem resumo_valores_row_valores (rows : List StockRow) (f : String) :
    (resumo_valores_row rows f).valores =
      bucketLabels.map (fun b => (b, somaFaixa rows f b)) := rfl

theorem resumo_valores_row_total (rows : List StockRow) (f : String) :
    (resumo_valores_row rows f).total =
      (bucketLabels.map (fun b => somaFaixa rows f b)).sum := by
  simp only [resumo_valores_row, List.map_map]
  rfl

theorem bucket_partition (rows : List StockRow) (f : String) :
    (bucketLabels.map (fun b => somaFaixa rows f b)).sum =
      ((branchRows rows f).map (·.saldo_pedido)).sum := by
  induction rows with
  | nil => simp [somaFaixa_nil, branchRows_nil]
  | cons r rest ih =>
    have hcons : (bucketLabels.map (fun b => somaFaixa (r :: rest) f b)).sum =
        (bucketLabels.map (fun b =>
          if r.filial = f ∧ faixa r.cobertura_dias = b then r.saldo_pedido else 0)).sum +
        (bucketLabels.map (fun b => somaFaixa rest f b)).sum := by
      rw [← sum_map_add]
      simp only [somaFaixa_cons]
    rw [hcons, ih, branchRows_cons]
    by_cases hf : r.filial = f
    · have hone : (bucketLabels.map (fun b =>
          if r.filial = f ∧ faixa r.cobertura_dias = b then r.saldo_pedido else 0)).sum
          = r.saldo_pedido := by
        simp only [hf, true_and]
        exact sum_ite_mem bucketLabels (faixa r.cobertura_dias) r.saldo_pedido
          bucketLabels_nodup (faixa_mem r.cobertura_dias)
      rw [hone, if_pos hf]
      simp
    · have hzero : (bucketLabels.map (fun b =>
          if r.filial = f ∧ faixa r.cobertura_dias = b then r.saldo_pedido else 0)).sum
          = 0 := by
        simp [hf]
      rw [hzero, if_neg hf]
      simp

theorem total_eq_branch_sum (rows : List StockRow) (f : String) :
    (resumo_valores_row rows f).total =
      ((branchRows rows f).map (·.saldo_pedido)).sum := by
  rw [resumo_valores_row_total, bucket_partition]

theorem filiais_sorted (rows : List StockRow) :
    List.Sorted (· < ·) (filiais rows) := by
  have hs : List.Sorted (· ≤ ·) (filiais rows) := List.sorted_insertionSort _ _
  have hn : (filiais rows).Nodup :=
    (List.perm_insertionSort _ _).nodup_iff.mpr (List.nodup_dedup _)
  exact hs.lt_of_le hn

theorem pctSum_eq (rows : List StockRow) (f : String)
    (hT : (resumo_valores_row rows f).total ≠ 0) :
    pctSum (resumo_percentuais_row rows f) =
      (bucketLabels.map (fun b =>
        round2 (somaFaixa rows f b / (resumo_valores_row rows f).total * 100))).sum := by
  simp only [pctSum, resumo_percentuais_row, resumo_valores_row_valores, pctCell,
    if_neg hT, List.map_map]
  rfl

theorem sum6_round2_bound (v1 v2 v3 v4 v5 v6 T : ℚ) (hT : T ≠ 0)
    (h6 : v1 + v2 + v3 + v4 + v5 + v6 = T) :
    9997 / 100 ≤ round2 (v1 / T * 100) + (round2 (v2 / T * 100) + (round2 (v3 / T * 100) +
      (round2 (v4 / T * 100) + (round2 (v5 / T * 100) + (round2 (v6 / T * 100) + 0))))) ∧
    round2 (v1 / T * 100) + (round2 (v2 / T * 100) + (round2 (v3 / T * 100) +
      (round2 (v4 / T * 100) + (round2 (v5 / T * 100) + (round2 (v6 / T * 100) + 0))))) ≤
      10003 / 100 := by
  have hsum : v1 / T * 100 + v2 / T * 100 + v3 / T * 100 + v4 / T * 100 +
      v5 / T * 100 + v6 / T * 100 = 100 := by
    field_simp
    linarith [h6]
  obtain ⟨a1, b1⟩ := abs_le.mp (round2_abs_le (v1 / T * 100))
  obtain ⟨a2, b2⟩ := abs_le.mp (round2_abs_le (v2 / T * 100))
  obtain ⟨a3, b3⟩ := abs_le.mp (round2_abs_le (v3 / T * 100))
  obtain ⟨a4, b4⟩ := abs_le.mp (round2_abs_le (v4 / T * 100))
  obtain ⟨a5, b5⟩ := abs_le.mp (round2_abs_le (v5 / T * 100))
  obtain ⟨a6, b6⟩ := abs_le.mp (round2_abs_le (v6 / T * 100))
  constructor <;> linarith

/-- C3: the Bucketizer faixa is total over the six bucket labels (which
are pairwise distinct, so every coverage value lands in exactly one
bucket), with half-open lower-inclusive boundaries: faixa(-1) is the
first bucket, faixa(0) and faixa(14.999) the second, faixa(15) the
third, and faixa(60) the last ("Mais de 60 dias" is the code label for
the spec bucket ">60 days"). -/
theorem C3_faixa_total_e_fronteiras :
    (∀ c : ℚ, faixa c ∈ bucketLabels) ∧ bucketLabels.Nodup ∧
    faixa (-1) = "<=0 dias" ∧ faixa 0 = "1-15 dias" ∧
    faixa (14999 / 1000) = "1-15 dias" ∧ faixa 15 = "16-30 dias" ∧
    faixa 60 = "Mais de 60 dias" := by
  refine ⟨faixa_mem, bucketLabels_nodup, ?_, ?_, ?_, ?_, ?_⟩
  all_goals norm_num [faixa]

/-- C7: the empty (but valid) input produces empty output tables and no
error: cobertura, resumo_valores and resumo_percentuais are all empty
lists. -/
theorem C7_entrada_vazia :
    cobertura [] = [] ∧ resumo_valores [] = [] ∧ resumo_percentuais [] = [] := by
  refine ⟨?_, ?_, ?_⟩ <;>
    simp [cobertura, resumo_valores, resumo_percentuais, filiais, List.insertionSort]

/-- C2 counterexample: a 2-row table written starting at row 1 makes the
layout function return 5, not the claimed 6 = 1 + 1 + 2 + 1 + 1; the
title occupies row 1, the header row 2, the data rows 3 and 4, and the
returned next row 5 follows the last written row with no blank row of
separation. -/
theorem C2_counterexample :
    (escrever_tabela_com_estilo 1 2).nextRow = 5 ∧
    (escrever_tabela_com_estilo 1 2).nextRow ≠ 6 ∧
    (escrever_tabela_com_estilo 1 2).dataRows = [3, 4] := by
  refine ⟨rfl, by decide, rfl⟩

/-- C2 (amended): for every table written starting at row r with n data
rows, escrever_tabela_com_estilo returns r (title) + 1 (header) + n
(data rows) + 1 = r + n + 2, i.e. the row immediately after the last
written row (headerRow + n): the layout leaves NO blank row of
separation; a 2-row table starting at row 1 yields next row 5. -/
theorem C2_proxima_linha (r n : Nat) :
    (escrever_tabela_com_estilo r n).nextRow = r + n + 2 ∧
    (escrever_tabela_com_estilo r n).nextRow =
      (escrever_tabela_com_estilo r n).headerRow + n + 1 ∧
    (escrever_tabela_com_estilo 1 2).nextRow = 5 := by
  refine ⟨?_, ?_, rfl⟩
  · simp only [escrever_tabela_com_estilo]
    omega
  · simp only [escrever_tabela_com_estilo]

/-- C9: whenever the positive-weight filter of calcular_media_ponderada
leaves a non-empty group, the weight sum pesoTotal handed to the
np.average division is strictly positive, and the function result is
exactly the division somaPonderada / pesoTotal — the zero-division
branch is unreachable. -/
theorem C9_divisor_positivo (g : List StockRow)
    (h : g.filter (fun r => 0 < r.valor_estoque) ≠ []) :
    0 < pesoTotal g ∧
    calcular_media_ponderada g = somaPonderada g / pesoTotal g := by
  refine ⟨pesoTotal_pos g h, ?_⟩
  simp only [calcular_media_ponderada, somaPonderada, pesoTotal]
  rw [if_neg (by simpa using h)]

/-- C9 witness: the six-row input rows6 has a non-empty positive-weight
subset, positive pesoTotal, and the weighted average equal to the
quotient. -/
theorem C9_divisor_positivo_witness :
    0 < pesoTotal rows6 ∧
    calcular_media_ponderada rows6 = somaPonderada rows6 / pesoTotal rows6 :=
  C9_divisor_positivo rows6 (by norm_num [rows6, filterPos_cons, filterPos_nil]; simp)

/-- C4: per branch, if every row has non-positive valor_estoque the
weighted average is the explicit fallback 0; and if the positive-weight
subset is non-empty, the weight sum is positive and the result is the
genuine stock-value-weighted mean of cobertura_dias over exactly that
subset (result times weight sum equals the weighted sum).  The spec
rounds this value to 2 decimals afterwards (section 4.2 step 4). -/
theorem C4_media_ponderada (rows : List StockRow) (f : String) :
    ((∀ r ∈ branchRows rows f, r.valor_estoque ≤ 0) →
      calcular_media_ponderada (branchRows rows f) = 0) ∧
    ((branchRows rows f).filter (fun r => 0 < r.valor_estoque) ≠ [] →
      0 < pesoTotal (branchRows rows f) ∧
      calcular_media_ponderada (branchRows rows f) * pesoTotal (branchRows rows f) =
        somaPonderada (branchRows rows f)) := by
  constructor
  · intro hall
    have hnil : (branchRows rows f).filter (fun r => 0 < r.valor_estoque) = [] :=
      List.filter_eq_nil_iff.mpr (fun r hr => by simpa using not_lt.mpr (hall r hr))
    simp [calcular_media_ponderada, hnil]
  · intro hne
    have hpos := pesoTotal_pos _ hne
    refine ⟨hpos, ?_⟩
    have hq : calcular_media_ponderada (branchRows rows f) =
        somaPonderada (branchRows rows f) / pesoTotal (branchRows rows f) := by
      simp only [calcular_media_ponderada, somaPonderada, pesoTotal]
      rw [if_neg (by simpa using hne)]
    rw [hq, div_mul_cancel₀]
    exact ne_of_gt hpos

/-- C4 witness: for the all-non-positive-weight branch "C" of rowsNeg the
fallback 0 is returned; for branch "A" of rowsW (spec section 8
scenario) the positive-weight subset is non-empty, pesoTotal is positive
and the weighted-mean identity holds. -/
theorem C4_media_ponderada_witness :
    calcular_media_ponderada (branchRows rowsNeg "C") = 0 ∧
    (0 < pesoTotal (branchRows rowsW "A") ∧
      calcular_media_ponderada (branchRows rowsW "A") * pesoTotal (branchRows rowsW "A") =
        somaPonderada (branchRows rowsW "A")) := by
  constructor
  · refine (C4_media_ponderada rowsNeg "C").1 ?_
    intro r hr
    simp [rowsNeg, branchRows_cons, branchRows_nil] at hr
    subst hr
    norm_num
  · refine (C4_media_ponderada rowsW "A").2 ?_
    norm_num [rowsW, branchRows_cons, branchRows_nil, filterPos_cons, filterPos_nil]

/-- C5: for every branch key, the resumo_valores row is dense — its cells
carry exactly the six bucket labels in order, the cell of bucket b holds
somaFaixa (the sum of saldo_pedido of the branch rows classified into
b), a bucket no branch row falls into holds 0 — and TOTAL equals both
the exact sum of the six bucket cells and the exact sum of saldo_pedido
over all rows of the branch (nothing dropped, nothing double-counted). -/
theorem C5_distribuicao_densa (rows : List StockRow) (f : String) :
    ((resumo_valores_row rows f).valores.map Prod.fst = bucketLabels) ∧
    (∀ b ∈ bucketLabels, (b, somaFaixa rows f b) ∈ (resumo_valores_row rows f).valores) ∧
    (∀ b ∈ bucketLabels,
      (∀ r ∈ rows, r.filial = f → faixa r.cobertura_dias ≠ b) →
        (b, (0 : ℚ)) ∈ (resumo_valores_row rows f).valores) ∧
    (resumo_valores_row rows f).total =
      ((resumo_valores_row rows f).valores.map Prod.snd).sum ∧
    (resumo_valores_row rows f).total =
      ((branchRows rows f).map (·.saldo_pedido)).sum := by
  refine ⟨?_, ?_, ?_, rfl, total_eq_branch_sum rows f⟩
  · simp only [resumo_valores_row_valores, List.map_map]
    rfl
  · intro b hb
    rw [resumo_valores_row_valores]
    exact List.mem_map_of_mem _ hb
  · intro b hb hnone
    have hz : somaFaixa rows f b = 0 := by
      unfold somaFaixa
      have hfil : rows.filter (fun r => r.filial = f ∧ faixa r.cobertura_dias = b) = [] :=
        List.filter_eq_nil_iff.mpr (fun r hr => by
          simp only [decide_eq_true_eq, not_and]
          intro hf
          exact hnone r hr hf)
      rw [hfil]
      rfl
    have hmem := List.mem_map_of_mem (fun b => (b, somaFaixa rows f b)) hb
    rw [resumo_valores_row_valores]
    simpa [hz] using hmem

/-- C5 witness: for the spec section 8 scenario rowsW, bucket
"31-45 dias" (into which no row falls) is present with value 0, and
TOTAL is 80 = 50 + 30. -/
theorem C5_distribuicao_densa_witness :
    ("31-45 dias", (0 : ℚ)) ∈ (resumo_valores_row rowsW "A").valores ∧
    (resumo_valores_row rowsW "A").total = 80 := by
  constructor
  · refine (C5_distribuicao_densa rowsW "A").2.2.1 "31-45 dias" (by simp [bucketLabels]) ?_
    intro r hr hf
    simp only [rowsW, List.mem_cons, List.mem_singleton] at hr
    rcases hr with rfl | rfl | h
    · norm_num [faixa]
      simp
    · norm_num [faixa]
      simp
    · simp at h
  · rw [(C5_distribuicao_densa rowsW "A").2.2.2.2]
    norm_num [rowsW, branchRows_cons, branchRows_nil]

/-- C1 counterexample: for the one-row input rowsZ (whose only saldo value is
0) the TOTAL of branch "A" is 0, yet the percent row does NOT hold 0 in
every bucket as claimed: the unguarded division of src/app.py line 73
performs 0/0 on every bucket column, so all six percent cells are
non-finite (NaN, modelled none), and none is not the cell 0. -/
theorem C1_counterexample :
    (resumo_valores_row rowsZ "A").total = 0 ∧
    (resumo_percentuais_row rowsZ "A").valores.map Prod.snd =
      [none, none, none, none, none, none] ∧
    (none : Option ℚ) ≠ some 0 := by
  have htot : (resumo_valores_row rowsZ "A").total = 0 := by
    norm_num [resumo_valores_row, bucketLabels, somaFaixa_cons, somaFaixa_nil, faixa, rowsZ]
  refine ⟨htot, ?_, by simp⟩
  simp [resumo_percentuais_row, resumo_valores_row_valores, pctCell, htot,
    List.map_map, bucketLabels, Function.comp]

/-- C1 (amended): for every branch whose TOTAL equals 0 the code performs
the division anyway, and every bucket cell of the PercentDistributionRow
is the non-finite value produced by dividing by zero (NaN for 0/0,
modelled none) — not the 0 fallback the spec describes, which does not
exist in the code. -/
theorem C1_total_zero_percentuais (rows : List StockRow) (f : String)
    (h : (resumo_valores_row rows f).total = 0) :
    (resumo_percentuais_row rows f).valores.map Prod.snd =
      [none, none, none, none, none, none] := by
  simp [resumo_percentuais_row, resumo_valores_row_valores, pctCell, h,
    List.map_map, bucketLabels, Function.comp]

/-- C1 witness: the amended statement applied to the concrete zero-total
input rowsZ. -/
theorem C1_total_zero_percentuais_witness :
    (resumo_percentuais_row rowsZ "A").valores.map Prod.snd =
      [none, none, none, none, none, none] :=
  C1_total_zero_percentuais rowsZ "A"
    (by norm_num [resumo_valores_row, bucketLabels, somaFaixa_cons, somaFaixa_nil,
      faixa, rowsZ])

/-- C6 counterexample: for rows6 (six equal buckets of 100, TOTAL 600)
each rounded percentage is 16.67, so their sum is 100.02 = 5001/50,
which lies outside the claimed interval [99.99, 100.01]. -/
theorem C6_counterexample :
    0 < (resumo_valores_row rows6 "A").total ∧
    pctSum (resumo_percentuais_row rows6 "A") = 5001 / 50 ∧
    ¬ pctSum (resumo_percentuais_row rows6 "A") ≤ 10001 / 100 := by
  have htot : (resumo_valores_row rows6 "A").total = 600 := by
    norm_num [resumo_valores_row, bucketLabels, somaFaixa_cons, somaFaixa_nil, faixa, rows6]
    simp
    norm_num
  have hsum : pctSum (resumo_percentuais_row rows6 "A") = 5001 / 50 := by
    norm_num [pctSum, resumo_percentuais_row, resumo_valores_row, bucketLabels,
      somaFaixa_cons, somaFaixa_nil, faixa, rows6, pctCell]
    simp
    norm_num [round2, round_eq]
  refine ⟨by rw [htot]; norm_num, hsum, by rw [hsum]; norm_num⟩

/-- C6 (amended): for every branch whose TOTAL is strictly positive,
every percent cell is finite and the sum of the six rounded bucket
percentages lies in [99.97, 100.03] — six roundings to 2 decimals can
each move the exact value (which sums to 100) by up to 0.005, so the
achievable bound is 100 ± 0.03, not the claimed ±0.01. -/
theorem C6_soma_percentuais (rows : List StockRow) (f : String)
    (hT : 0 < (resumo_valores_row rows f).total) :
    (∀ p ∈ (resumo_percentuais_row rows f).valores, p.2 ≠ none) ∧
    9997 / 100 ≤ pctSum (resumo_percentuais_row rows f) ∧
    pctSum (resumo_percentuais_row rows f) ≤ 10003 / 100 := by
  have hT' : (resumo_valores_row rows f).total ≠ 0 := ne_of_gt hT
  refine ⟨?_, ?_⟩
  · intro p hp
    simp only [resumo_percentuais_row, resumo_valores_row_valores, List.map_map,
      List.mem_map] at hp
    obtain ⟨b, hb, rfl⟩ := hp
    simp [pctCell, hT']
  · have hTot : (resumo_valores_row rows f).total =
        somaFaixa rows f "<=0 dias" + somaFaixa rows f "1-15 dias" +
        somaFaixa rows f "16-30 dias" + somaFaixa rows f "31-45 dias" +
        somaFaixa rows f "46-60 dias" + somaFaixa rows f "Mais de 60 dias" := by
      rw [resumo_valores_row_total]
      simp [bucketLabels]
      ring
    have hS : pctSum (resumo_percentuais_row rows f) =
        round2 (somaFaixa rows f "<=0 dias" / (resumo_valores_row rows f).total * 100) +
          (round2 (somaFaixa rows f "1-15 dias" / (resumo_valores_row rows f).total * 100) +
            (round2 (somaFaixa rows f "16-30 dias" / (resumo_valores_row rows f).total * 100) +
              (round2 (somaFaixa rows f "31-45 dias" / (resumo_valores_row rows f).total * 100) +
                (round2 (somaFaixa rows f "46-60 dias" / (resumo_valores_row rows f).total * 100) +
                  (round2 (somaFaixa rows f "Mais de 60 dias" / (resumo_valores_row rows f).total * 100) +
                    0))))) := by
      rw [pctSum_eq rows f hT']
      simp [bucketLabels]
    rw [hS]
    exact sum6_round2_bound _ _ _ _ _ _ _ hT' hTot.symm

/-- C6 witness: the amended bound applied to the concrete input rows6,
whose percent sum 100.02 indeed lies in [99.97, 100.03]. -/
theorem C6_soma_percentuais_witness :
    (∀ p ∈ (resumo_percentuais_row rows6 "A").valores, p.2 ≠ none) ∧
    9997 / 100 ≤ pctSum (resumo_percentuais_row rows6 "A") ∧
    pctSum (resumo_percentuais_row rows6 "A") ≤ 10003 / 100 :=
  C6_soma_percentuais rows6 "A" (by
    have htot : (resumo_valores_row rows6 "A").total = 600 := by
      norm_num [resumo_valores_row, bucketLabels, somaFaixa_cons, somaFaixa_nil, faixa, rows6]
      simp
      norm_num
    rw [htot]
    norm_num)

/-- C10: in all three output tables the branch keys are exactly filiais
rows (pandas groupby key order), which is strictly sorted ascending; the
same order is used by all three tables; and for the input rowsBA, whose
first-occurrence order is "B" then "A", the output order is the sorted
["A", "B"], not the input order. -/
theorem C10_ordem_filiais (rows : List StockRow) :
    (cobertura rows).map (fun s => s.filial) = filiais rows ∧
    (resumo_valores rows).map (fun d => d.filial) = filiais rows ∧
    (resumo_percentuais rows).map (fun p => p.filial) = filiais rows ∧
    List.Sorted (· < ·) (filiais rows) ∧
    filiais rowsBA = ["A", "B"] := by
  refine ⟨?_, ?_, ?_, filiais_sorted rows, ?_⟩
  · rw [cobertura, List.map_map]
    exact List.map_id _
  · rw [resumo_valores, List.map_map]
    exact List.map_id _
  · rw [resumo_percentuais, List.map_map]
    exact List.map_id _
  · simp [filiais, rowsBA, List.dedup, List.insertionSort, List.orderedInsert]
    decide
